import Mathlib

/-!
# Verification of the vessel-ops due-status / missing-inventory core

Shallow embedding of the derived-status logic of the `dock-ops` repository
(`apps/web/src/app/vessels/[id]/page.tsx`, `apps/web/src/lib/api.ts`,
`apps/web/src/components/log-trip-modal.tsx`).  Quantities and hours are
modelled as rationals (`ℚ`), timestamps as integers (`ℤ`, milliseconds since
the epoch, matching JavaScript `Date` comparisons).  Fields computed by the
FastAPI backend (which is not part of the frontend sources) are modelled from
the specification and marked as such in their doc comments.
-/

namespace VesselOps

/-- Line condition of an inventory check line (`"ok" | "needs_replacement" | "missing"`). -/
inductive LineCondition where
  | ok
  | needsReplacement
  | missing
deriving DecidableEq, Repr

/-- An inventory requirement as delivered by the API
(`InventoryRequirement` in `apps/web/src/lib/api.ts`), restricted to the
fields the status computations read. -/
structure InventoryRequirement where
  id : Nat
  required_quantity : ℚ
  critical : Bool
  current_quantity : ℚ
  auto_consume_enabled : Bool
  consume_per_hour : Option ℚ
deriving DecidableEq, Repr

/-- Predicate `isMissing` from `renderRequirementCard` (and identically in
`InventoryCheckView`): `const isMissing = currentQty < req.required_quantity`. -/
def cardIsMissing (req : InventoryRequirement) (currentQty : ℚ) : Bool :=
  currentQty < req.required_quantity

/-- The missing amount shown by the requirement card: the card renders
`(req.required_quantity - currentQty) missing` exactly when `isMissing`,
i.e. the displayed shortfall is `required_quantity - currentQty` when
`currentQty < required_quantity` and `0` (nothing rendered) otherwise. -/
def cardMissing (req : InventoryRequirement) (currentQty : ℚ) : ℚ :=
  if currentQty < req.required_quantity then req.required_quantity - currentQty else 0

/-- Milliseconds in seven days: the view computes
`sevenDaysFromNow = new Date(now.getTime() + 7 * 24 * 60 * 60 * 1000)`. -/
def sevenDaysMs : ℤ := 7 * 24 * 60 * 60 * 1000

/-- A maintenance task as delivered by `listMaintenanceTasks`
(`MaintenanceTask` in `apps/web/src/lib/api.ts`), restricted to the fields the
status computations read.  `hours_remaining` and `is_due_by_hours` are marked
"Computed by API when listing" in the type declaration; they are optional and
nullable, hence `Option`. -/
structure MaintenanceTask where
  id : Nat
  next_due_at : Option ℤ
  is_active : Bool
  hours_remaining : Option ℚ
  is_due_by_hours : Option Bool
deriving DecidableEq, Repr

/-- The label returned by `getTaskStatus`: `"Overdue"`, `"Due soon (hrs)"`,
`"Due soon"`, `"No due date"`, `"OK"`. -/
inductive TaskStatusLabel where
  | overdue
  | dueSoonHrs
  | dueSoon
  | noDueDate
  | ok
deriving DecidableEq, Repr

/-- Function `getTaskStatus` from the maintenance view (`apps/web/src/app/vessels/[id]/page.tsx`):
```
const dueByHours = task.is_due_by_hours === true;
const dueByDate = task.next_due_at && new Date(task.next_due_at) < now;
if (dueByHours || dueByDate) return { label: "Overdue", ... };
if (task.hours_remaining != null && task.hours_remaining <= 7 * 24 && task.hours_remaining > 0)
  return { label: "Due soon (hrs)", ... };
if (task.next_due_at) {
  const dueDate = new Date(task.next_due_at);
  if (dueDate <= sevenDaysFromNow && dueDate >= now) return { label: "Due soon", ... };
}
if (!task.next_due_at && task.hours_remaining == null) return { label: "No due date", ... };
return { label: "OK", ... };
```
-/
def getTaskStatus (now : ℤ) (task : MaintenanceTask) : TaskStatusLabel :=
  let sevenDaysFromNow := now + sevenDaysMs
  let dueByHours : Bool := task.is_due_by_hours == some true
  let dueByDate : Bool :=
    match task.next_due_at with
    | some d => decide (d < now)
    | none => false
  if dueByHours || dueByDate then .overdue
  else if (match task.hours_remaining with
           | some hr => decide (hr ≤ 7 * 24) && decide (0 < hr)
           | none => false) then .dueSoonHrs
  else if (match task.next_due_at with
           | some d => decide (d ≤ sevenDaysFromNow) && decide (now ≤ d)
           | none => false) then .dueSoon
  else if task.next_due_at == none && task.hours_remaining == none then .noDueDate
  else .ok

/-- The predicate of `overdueCount`:
`tasks?.filter(task => task.is_due_by_hours === true || (task.next_due_at && new Date(task.next_due_at) < now))`. -/
def overdueTaskB (now : ℤ) (task : MaintenanceTask) : Bool :=
  task.is_due_by_hours == some true ||
    (match task.next_due_at with
     | some d => decide (d < now)
     | none => false)

/-- Count `overdueCount` over the fetched task list. -/
def overdueCount (now : ℤ) (tasks : List MaintenanceTask) : Nat :=
  (tasks.filter (overdueTaskB now)).length

/-- The predicate of `dueSoonCount`:
`(task.hours_remaining != null && task.hours_remaining > 0 && task.hours_remaining <= 7 * 24) || (task.next_due_at && new Date(task.next_due_at) <= sevenDaysFromNow && new Date(task.next_due_at) >= now)`. -/
def dueSoonTaskB (now : ℤ) (task : MaintenanceTask) : Bool :=
  (match task.hours_remaining with
   | some hr => decide (0 < hr) && decide (hr ≤ 7 * 24)
   | none => false) ||
    (match task.next_due_at with
     | some d => decide (d ≤ now + sevenDaysMs) && decide (now ≤ d)
     | none => false)

/-- Count `dueSoonCount` over the fetched task list. -/
def dueSoonCount (now : ℤ) (tasks : List MaintenanceTask) : Nat :=
  (tasks.filter (dueSoonTaskB now)).length

/-- The status filter selected in the maintenance view
(`"all" | "overdue" | "due_soon" | "active"`). -/
inductive TaskFilter where
  | all
  | overdue
  | dueSoon
  | active
deriving DecidableEq, Repr

/-- The per-task predicate of `filteredTasks` (the body of the final `list.filter`;
the free-text search prefilter is orthogonal and applied before it):
```
if (!task.is_active && filter === "active") return false;
if (filter === "all") return true;
if (filter === "active") return task.is_active;
if (!task.next_due_at) return false;
const dueDate = new Date(task.next_due_at);
if (filter === "overdue") return dueDate < now;
if (filter === "due_soon") return dueDate <= sevenDaysFromNow && dueDate >= now;
return true;
```
-/
def filteredTaskB (now : ℤ) (filter : TaskFilter) (task : MaintenanceTask) : Bool :=
  if !task.is_active && (filter == .active) then false
  else if filter == .all then true
  else if filter == .active then task.is_active
  else
    match task.next_due_at with
    | none => false
    | some d =>
      if filter == .overdue then decide (d < now)
      else if filter == .dueSoon then decide (d ≤ now + sevenDaysMs) && decide (now ≤ d)
      else true

/-- List `filteredTasks` applied to the (search-prefiltered) task list. -/
def filteredTasks (now : ℤ) (filter : TaskFilter) (tasks : List MaintenanceTask) : List MaintenanceTask :=
  tasks.filter (filteredTaskB now filter)

/-- Modelled from the spec: the FastAPI backend (absent from the frontend
sources under `src/`) computes, when listing tasks with a non-null
`interval_hours`, `hours_remaining = interval_hours − hours_since_last`. -/
def apiHoursRemaining (interval_hours : Option ℚ) (hours_since_last : ℚ) : Option ℚ :=
  interval_hours.map fun ih => ih - hours_since_last

/-- Modelled from the spec: the FastAPI backend (absent from the frontend
sources under `src/`) flags a task as due by hours exactly when
`hours_remaining ≤ 0` (the hour-based `OVERDUE` rule). -/
def apiIsDueByHours (interval_hours : Option ℚ) (hours_since_last : ℚ) : Option Bool :=
  interval_hours.map fun ih => decide (ih - hours_since_last ≤ 0)


/-- Status of an inventory check (`"in_progress" | "submitted"`). -/
inductive CheckStatus where
  | inProgress
  | submitted
deriving DecidableEq, Repr

/-- An inventory check line, restricted to the fields the computations read
(`InventoryCheckLine` / `InventoryCheckLineCreate` in `apps/web/src/lib/api.ts`). -/
structure InventoryCheckLine where
  requirement_id : Nat
  actual_quantity : ℚ
  condition : LineCondition
  notes : Option String
deriving DecidableEq, Repr

/-- An inventory check with its status and line set. -/
structure InventoryCheck where
  status : CheckStatus
  lines : List InventoryCheckLine
deriving DecidableEq, Repr

/-- The record built by the `forEach` inside `latestQuantities`: each line is
assigned into `quantities[line.requirement_id]`, so a later line for the same
`requirement_id` overwrites an earlier one. -/
def linesQty (lines : List InventoryCheckLine) (reqId : Nat) : Option ℚ :=
  lines.foldl (fun acc l => if l.requirement_id = reqId then some l.actual_quantity else acc) none

/-- Map `latestQuantities` of the inventory view:
`const checkToUse = inProgressCheck || latestSubmittedCheck;` and the
quantities are read off `checkToUse.lines`; when neither check exists the
record stays empty. -/
def latestQuantities (inProgressCheck latestSubmittedCheck : Option InventoryCheck)
    (reqId : Nat) : Option ℚ :=
  match inProgressCheck.orElse (fun _ => latestSubmittedCheck) with
  | some c => linesQty c.lines reqId
  | none => none

/-- Value `currentQty` in `renderRequirementCard`:
`req.auto_consume_enabled ? (req.current_quantity ?? 0) : (latestQuantities[req.id]?.qty ?? 0)`. -/
def renderCurrentQty (lq : Nat → Option ℚ) (req : InventoryRequirement) : ℚ :=
  if req.auto_consume_enabled then req.current_quantity else (lq req.id).getD 0

/-- The `missingCount` accumulation in `inventorySections`, applied to the
items of one section:
```
let missingCount = 0;
items.forEach((req) => {
  const current = latestQuantities[req.id]?.qty ?? 0;
  if (current < req.required_quantity) missingCount += req.required_quantity - current;
});
```
-/
def sectionMissingCount (lq : Nat → Option ℚ) (items : List InventoryRequirement) : ℚ :=
  items.foldl
    (fun missingCount req =>
      let current := (lq req.id).getD 0
      if current < req.required_quantity then missingCount + (req.required_quantity - current)
      else missingCount)
    0

/-- The aggregate as the claim words it: the current quantity feeding each
requirement of the sum is the auto-consume-aware per-item source
(`renderCurrentQty`).  This definition follows the spec text only, to be
compared with `sectionMissingCount` as computed by the source. -/
def claimMissingCount (lq : Nat → Option ℚ) (items : List InventoryRequirement) : ℚ :=
  (items.map fun req => max 0 (req.required_quantity - renderCurrentQty lq req)).sum

/-- The payload built by `saveQuantities` (and identically by `handleSubmit`)
in `InventoryCheckView`:
```
requirements.map((req) => ({
  requirement_id: req.id,
  actual_quantity: quantities[req.id] || 0,
  condition: "ok",
  notes: null,
}))
```
-/
def checkViewLines (requirements : List InventoryRequirement) (quantities : Nat → Option ℚ) :
    List InventoryCheckLine :=
  requirements.map fun req =>
    { requirement_id := req.id
      actual_quantity := (quantities req.id).getD 0
      condition := .ok
      notes := none }

/-- Error kinds surfaced by the operations modelled here. -/
inductive ApiError where
  | validationError
  | notFoundError
  | conflictError
deriving DecidableEq, Repr

/-- Modelled from the spec: replace-by-`requirement_id` upsert of a single
line into a check line set (the backend handler is absent from `src/`): if a
line for the same requirement exists it is overwritten, otherwise the line is
appended. -/
def upsertLine (lines : List InventoryCheckLine) (l : InventoryCheckLine) :
    List InventoryCheckLine :=
  if lines.any (fun x => x.requirement_id == l.requirement_id) then
    lines.map fun x => if x.requirement_id == l.requirement_id then l else x
  else lines ++ [l]

/-- Modelled from the spec: the backend handler of
`PUT /api/inventory/checks/{id}/lines` (absent from `src/`; its frontend
client is `updateInventoryCheckLines` in `apps/web/src/lib/api.ts`): fails
with `ConflictError` if the check is already submitted, otherwise upserts the
whole batch. -/
def upsertLines (c : InventoryCheck) (newLines : List InventoryCheckLine) :
    Except ApiError InventoryCheck :=
  match c.status with
  | .submitted => .error .conflictError
  | .inProgress => .ok { c with lines := newLines.foldl upsertLine c.lines }

/-- Modelled from the spec: the backend handler of
`POST /api/inventory/checks/{id}/submit` (absent from `src/`; its frontend
client is `submitInventoryCheck`): transitions the check to `submitted`, and
fails with `ConflictError` if it is already submitted. -/
def submitCheck (c : InventoryCheck) : Except ApiError InventoryCheck :=
  match c.status with
  | .submitted => .error .conflictError
  | .inProgress => .ok { c with status := .submitted }

/-- The stored check after an `upsertLines` call: a failed call leaves it
unchanged. -/
def afterUpsertLines (c : InventoryCheck) (newLines : List InventoryCheckLine) :
    InventoryCheck :=
  match upsertLines c newLines with
  | .ok c2 => c2
  | .error _ => c

/-- The stored check after a `submit` call: a failed call leaves it unchanged. -/
def afterSubmit (c : InventoryCheck) : InventoryCheck :=
  match submitCheck c with
  | .ok c2 => c2
  | .error _ => c

/-- Modelled from the spec: the backend AutoConsumptionEngine (absent from
`src/`) — on each trip creation, every requirement of the trip vessel with
`auto_consume_enabled` and a non-null `consume_per_hour` gets
`new_quantity = max(0, current_quantity − trip.hours × consume_per_hour)`. -/
def autoConsume (current_quantity trip_hours consume_per_hour : ℚ) : ℚ :=
  max 0 (current_quantity - trip_hours * consume_per_hour)

/-- One update of a requirement `current_quantity`: a trip-triggered
auto-consumption, or a direct edit from the requirement card (the card clamps
every edit with `Math.max(0, value)`, see `renderRequirementCard`). -/
inductive QuantityUpdate where
  | trip (hours consume_per_hour : ℚ)
  | directEdit (value : ℚ)
deriving DecidableEq, Repr

/-- Apply one quantity update. -/
def applyQuantityUpdate (q : ℚ) : QuantityUpdate → ℚ
  | .trip h c => autoConsume q h c
  | .directEdit v => max 0 v

/-- Apply a sequence of quantity updates in order. -/
def applyQuantityUpdates (q : ℚ) (us : List QuantityUpdate) : ℚ :=
  us.foldl applyQuantityUpdate q

/-- The trip payload sent by `createTripMutation.mutate` in `LogTripModal`
(`TripCreate` in `apps/web/src/lib/api.ts`, restricted to `hours`). -/
structure TripCreate where
  hours : ℚ
deriving DecidableEq, Repr

/-- Function `handleSubmit` of `LogTripModal`
(`apps/web/src/components/log-trip-modal.tsx`):
```
const h = parseFloat(hours);
if (Number.isNaN(h) || h <= 0) {
  toast.error("Please enter hours greater than 0");
  return;
}
createTripMutation.mutate({ hours: h, ... });
```
The parse result is `none` when `parseFloat` returns `NaN` (non-numeric
input); the synchronously surfaced validation failure is the `error` branch,
and only the `ok` branch reaches the trip-creating mutation. -/
def handleSubmitTrip (parsed : Option ℚ) : Except ApiError TripCreate :=
  match parsed with
  | none => .error .validationError
  | some h => if h ≤ 0 then .error .validationError else .ok { hours := h }

end VesselOps

/-- C1: for every requirement with `required_quantity ≥ 0` and every
`currentQty ≥ 0`, the gap computation yields
`missing = max 0 (required_quantity - currentQty)`, which is nonnegative,
vanishes whenever `currentQty ≥ required_quantity`, and `isMissing` holds
exactly when `missing > 0`. -/
theorem C1_gap_max_nonneg (req : VesselOps.InventoryRequirement) (currentQty : ℚ)
    (hreq : 0 ≤ req.required_quantity) (hcur : 0 ≤ currentQty) :
    VesselOps.cardMissing req currentQty = max 0 (req.required_quantity - currentQty) ∧
    0 ≤ VesselOps.cardMissing req currentQty ∧
    (req.required_quantity ≤ currentQty → VesselOps.cardMissing req currentQty = 0) ∧
    (VesselOps.cardIsMissing req currentQty = true ↔ 0 < VesselOps.cardMissing req currentQty) := by
  unfold VesselOps.cardMissing VesselOps.cardIsMissing
  rcases lt_or_ge currentQty req.required_quantity with h | h
  · refine ⟨?_, ?_, ?_, ?_⟩
    · simp only [if_pos h]
      rw [max_eq_right (by linarith)]
    · simp only [if_pos h]; linarith
    · intro hle; linarith
    · simp only [if_pos h, decide_eq_true_eq]
      constructor
      · intro _; linarith
      · intro _; exact h
  · refine ⟨?_, ?_, ?_, ?_⟩
    · simp only [if_neg (not_lt.mpr h)]
      rw [max_eq_left (by linarith)]
    · simp only [if_neg (not_lt.mpr h)]; exact le_refl 0
    · intro _; simp only [if_neg (not_lt.mpr h)]
    · simp only [if_neg (not_lt.mpr h), decide_eq_true_eq]
      constructor
      · intro hlt; exact absurd hlt (not_lt.mpr h)
      · intro h0; exact absurd h0 (lt_irrefl 0)

/-- Witness for C1 at a concrete requirement (`required = 4`, `current = 2`). -/
theorem C1_gap_max_nonneg_witness :
    let req : VesselOps.InventoryRequirement :=
      { id := 1, required_quantity := 4, critical := true, current_quantity := 1,
        auto_consume_enabled := false, consume_per_hour := none }
    VesselOps.cardMissing req 2 = max 0 (req.required_quantity - 2) ∧
    0 ≤ VesselOps.cardMissing req 2 ∧
    (req.required_quantity ≤ 2 → VesselOps.cardMissing req 2 = 0) ∧
    (VesselOps.cardIsMissing req 2 = true ↔ 0 < VesselOps.cardMissing req 2) :=
  C1_gap_max_nonneg _ 2 (by norm_num) (by norm_num)

/-- C2: with hour-cadence inputs absent (`hours_remaining` null and
`is_due_by_hours` not reported), `getTaskStatus` labels a task Overdue exactly
when `next_due_at` is non-null and earlier than `now`; Due soon when
`now ≤ next_due_at ≤ now + 7 days`; OK when the due date is further out; and
No due date when `next_due_at` is null.  In particular it never reports
Overdue for `now ≤ next_due_at`. -/
theorem C2_date_rule (now d : ℤ) (t : VesselOps.MaintenanceTask)
    (hhr : t.hours_remaining = none) (hbh : t.is_due_by_hours = none) :
    (t.next_due_at = some d → d < now →
      VesselOps.getTaskStatus now t = VesselOps.TaskStatusLabel.overdue) ∧
    (t.next_due_at = some d → now ≤ d → d ≤ now + VesselOps.sevenDaysMs →
      VesselOps.getTaskStatus now t = VesselOps.TaskStatusLabel.dueSoon) ∧
    (t.next_due_at = some d → now + VesselOps.sevenDaysMs < d →
      VesselOps.getTaskStatus now t = VesselOps.TaskStatusLabel.ok) ∧
    (t.next_due_at = none →
      VesselOps.getTaskStatus now t = VesselOps.TaskStatusLabel.noDueDate) ∧
    (t.next_due_at = some d → now ≤ d →
      VesselOps.getTaskStatus now t ≠ VesselOps.TaskStatusLabel.overdue) := by
  refine ⟨?_, ?_, ?_, ?_, ?_⟩
  · intro hd hlt
    simp [VesselOps.getTaskStatus, hhr, hbh, hd, hlt]
  · intro hd h1 h2
    simp [VesselOps.getTaskStatus, hhr, hbh, hd, not_lt.mpr h1, h1, h2]
  · intro hd h1
    have hs : VesselOps.sevenDaysMs = 604800000 := by norm_num [VesselOps.sevenDaysMs]
    have h2 : ¬ d < now := by omega
    have h3 : ¬ d ≤ now + VesselOps.sevenDaysMs := by omega
    simp [VesselOps.getTaskStatus, hhr, hbh, hd, h2, h3]
  · intro hd
    simp [VesselOps.getTaskStatus, hhr, hbh, hd]
  · intro hd h1
    simp [VesselOps.getTaskStatus, hhr, hbh, hd, not_lt.mpr h1]
    intro hcontra
    exact absurd hcontra (by split <;> simp)

/-- Witness for C2 at a concrete task (`next_due_at` one millisecond before `now = 0`). -/
theorem C2_date_rule_witness :
    let t : VesselOps.MaintenanceTask :=
      { id := 1, next_due_at := some (-1), is_active := true,
        hours_remaining := none, is_due_by_hours := none }
    (t.next_due_at = some (-1) → (-1 : ℤ) < 0 →
      VesselOps.getTaskStatus 0 t = VesselOps.TaskStatusLabel.overdue) ∧
    (t.next_due_at = some (-1) → (0 : ℤ) ≤ -1 → (-1 : ℤ) ≤ 0 + VesselOps.sevenDaysMs →
      VesselOps.getTaskStatus 0 t = VesselOps.TaskStatusLabel.dueSoon) ∧
    (t.next_due_at = some (-1) → 0 + VesselOps.sevenDaysMs < -1 →
      VesselOps.getTaskStatus 0 t = VesselOps.TaskStatusLabel.ok) ∧
    (t.next_due_at = none →
      VesselOps.getTaskStatus 0 t = VesselOps.TaskStatusLabel.noDueDate) ∧
    (t.next_due_at = some (-1) → (0 : ℤ) ≤ -1 →
      VesselOps.getTaskStatus 0 t ≠ VesselOps.TaskStatusLabel.overdue) :=
  C2_date_rule 0 (-1) _ rfl rfl

/-- C3: for a task whose `interval_hours` is non-null, with the backend-computed
fields `hours_remaining = interval_hours − hours_since_last` and hour-overdue
flag `is_due_by_hours = (hours_remaining ≤ 0)`, `getTaskStatus` labels the task
Overdue exactly when the hour rule (`hours_remaining ≤ 0`) or the date rule
(`next_due_at < now`) signals overdue (logical OR), and labels it due-soon
(either due-soon label) exactly when it is not overdue and the hour rule
(`0 < hours_remaining ≤ 168`) or the date rule
(`now ≤ next_due_at ≤ now + 7 days`) signals due-soon; in particular when an
overdue condition and a due-soon condition both hold, the label is Overdue. -/
theorem C3_hour_rule (now : ℤ) (ih hsl : ℚ) (t : VesselOps.MaintenanceTask)
    (hhr : t.hours_remaining = VesselOps.apiHoursRemaining (some ih) hsl)
    (hbh : t.is_due_by_hours = VesselOps.apiIsDueByHours (some ih) hsl) :
    (VesselOps.getTaskStatus now t = VesselOps.TaskStatusLabel.overdue ↔
      (ih - hsl ≤ 0 ∨ ∃ d, t.next_due_at = some d ∧ d < now)) ∧
    ((VesselOps.getTaskStatus now t = VesselOps.TaskStatusLabel.dueSoonHrs ∨
        VesselOps.getTaskStatus now t = VesselOps.TaskStatusLabel.dueSoon) ↔
      (¬(ih - hsl ≤ 0 ∨ ∃ d, t.next_due_at = some d ∧ d < now) ∧
        ((0 < ih - hsl ∧ ih - hsl ≤ 168) ∨
          ∃ d, t.next_due_at = some d ∧ now ≤ d ∧ d ≤ now + VesselOps.sevenDaysMs))) := by
  have hhr2 : t.hours_remaining = some (ih - hsl) := hhr
  have hbh2 : t.is_due_by_hours = some (decide (ih - hsl ≤ 0)) := hbh
  rcases ht : t.next_due_at with _ | d <;>
    by_cases h0 : ih - hsl ≤ 0 <;>
      simp [VesselOps.getTaskStatus, hhr2, hbh2, ht, h0] <;>
      split_ifs <;> simp_all <;>
        first
          | omega
          | linarith
          | (left; linarith)
          | (constructor <;> intro <;> linarith)

/-- Witness for C3: `interval_hours = 500`, `hours_since_last = 510`
(hours overdue by 10), no due date. -/
theorem C3_hour_rule_witness :
    let t : VesselOps.MaintenanceTask :=
      { id := 2, next_due_at := none, is_active := true,
        hours_remaining := VesselOps.apiHoursRemaining (some 500) 510,
        is_due_by_hours := VesselOps.apiIsDueByHours (some 500) 510 }
    (VesselOps.getTaskStatus 0 t = VesselOps.TaskStatusLabel.overdue ↔
      ((500 : ℚ) - 510 ≤ 0 ∨ ∃ d, t.next_due_at = some d ∧ d < 0)) ∧
    ((VesselOps.getTaskStatus 0 t = VesselOps.TaskStatusLabel.dueSoonHrs ∨
        VesselOps.getTaskStatus 0 t = VesselOps.TaskStatusLabel.dueSoon) ↔
      (¬((500 : ℚ) - 510 ≤ 0 ∨ ∃ d, t.next_due_at = some d ∧ d < 0) ∧
        (((0 : ℚ) < 500 - 510 ∧ (500 : ℚ) - 510 ≤ 168) ∨
          ∃ d, t.next_due_at = some d ∧ 0 ≤ d ∧ d ≤ 0 + VesselOps.sevenDaysMs))) :=
  C3_hour_rule 0 500 510 _ rfl rfl

/-- Auxiliary: the `missingCount` fold of `inventorySections`, started from any
accumulator, equals the accumulator plus the sum of per-item shortfalls
computed from the check-line quantities. -/
lemma sectionMissingCount_foldl_aux (lq : Nat → Option ℚ)
    (items : List VesselOps.InventoryRequirement) :
    ∀ a : ℚ,
      items.foldl
        (fun missingCount req =>
          let current := (lq req.id).getD 0
          if current < req.required_quantity then missingCount + (req.required_quantity - current)
          else missingCount) a
      = a + (items.map fun r => max 0 (r.required_quantity - (lq r.id).getD 0)).sum := by
  induction items with
  | nil => intro a; simp
  | cons r rs ihh =>
    intro a
    simp only [List.foldl_cons, List.map_cons, List.sum_cons]
    rw [ihh]
    have hstep :
        (if (lq r.id).getD 0 < r.required_quantity
          then a + (r.required_quantity - (lq r.id).getD 0) else a)
        = a + max 0 (r.required_quantity - (lq r.id).getD 0) := by
      rcases lt_or_ge ((lq r.id).getD 0) r.required_quantity with hlt | hge
      · rw [if_pos hlt, max_eq_right (by linarith)]
      · rw [if_neg (not_lt.mpr hge), max_eq_left (by linarith), add_zero]
    rw [hstep]; ring

/-- C4 counterexample: an auto-consume requirement with
`current_quantity = required_quantity = 5` and no check line.  The claim makes
its contribution to the section `missingCount` equal to
`max 0 (5 − 5) = 0` (via the auto-consume-aware quantity source), but the
source computes 5: `inventorySections` reads only the check-line quantity
(`latestQuantities[req.id]?.qty ?? 0`) and never `current_quantity`. -/
theorem C4_counterexample :
    VesselOps.sectionMissingCount (fun _ => none)
      [{ id := 1, required_quantity := 5, critical := false, current_quantity := 5,
         auto_consume_enabled := true, consume_per_hour := some 1 }] = 5 ∧
    VesselOps.claimMissingCount (fun _ => none)
      [{ id := 1, required_quantity := 5, critical := false, current_quantity := 5,
         auto_consume_enabled := true, consume_per_hour := some 1 }] = 0 ∧
    VesselOps.sectionMissingCount (fun _ => none)
      [{ id := 1, required_quantity := 5, critical := false, current_quantity := 5,
         auto_consume_enabled := true, consume_per_hour := some 1 }] ≠
      VesselOps.claimMissingCount (fun _ => none)
        [{ id := 1, required_quantity := 5, critical := false, current_quantity := 5,
           auto_consume_enabled := true, consume_per_hour := some 1 }] := by
  refine ⟨?_, ?_, ?_⟩ <;>
    norm_num [VesselOps.sectionMissingCount, VesselOps.claimMissingCount,
      VesselOps.renderCurrentQty]

/-- C4 amended: the per-item display quantity is `requirement.current_quantity`
for auto-consume requirements and otherwise the quantity of the most recent
relevant check line — the in-progress check's record when one exists, else the
latest submitted check's record, else 0 — while the per-section `missingCount`
aggregate sums `max 0 (required − current)` with `current` always taken from
the check-line record (or 0), even for auto-consume requirements. -/
theorem C4_amended (lq : Nat → Option ℚ) (req : VesselOps.InventoryRequirement)
    (subm : Option VesselOps.InventoryCheck) (c : VesselOps.InventoryCheck)
    (items : List VesselOps.InventoryRequirement) :
    (req.auto_consume_enabled = true →
      VesselOps.renderCurrentQty lq req = req.current_quantity) ∧
    (req.auto_consume_enabled = false →
      VesselOps.renderCurrentQty lq req = (lq req.id).getD 0) ∧
    VesselOps.latestQuantities (some c) subm = VesselOps.linesQty c.lines ∧
    VesselOps.latestQuantities none (some c) = VesselOps.linesQty c.lines ∧
    VesselOps.latestQuantities none none = (fun _ => none) ∧
    VesselOps.sectionMissingCount lq items =
      (items.map fun r => max 0 (r.required_quantity - (lq r.id).getD 0)).sum := by
  refine ⟨?_, ?_, funext fun _ => rfl, funext fun _ => rfl, funext fun _ => rfl, ?_⟩
  · intro h; simp [VesselOps.renderCurrentQty, h]
  · intro h; simp [VesselOps.renderCurrentQty, h]
  · have := sectionMissingCount_foldl_aux lq items 0
    simpa [VesselOps.sectionMissingCount] using this

/-- Auxiliary: every quantity reached by applying updates to a nonnegative
starting quantity stays nonnegative. -/
lemma applyQuantityUpdates_nonneg (us : List VesselOps.QuantityUpdate) :
    ∀ q : ℚ, 0 ≤ q → 0 ≤ VesselOps.applyQuantityUpdates q us := by
  induction us with
  | nil => intro q hq; simpa [VesselOps.applyQuantityUpdates] using hq
  | cons u rest ihh =>
    intro q _
    have hstep : 0 ≤ VesselOps.applyQuantityUpdate q u := by
      cases u with
      | trip h c => exact le_max_left 0 _
      | directEdit v => exact le_max_left 0 _
    simpa [VesselOps.applyQuantityUpdates, List.foldl_cons] using
      ihh (VesselOps.applyQuantityUpdate q u) hstep

/-- C5: auto-consumption computes
`new_quantity = max 0 (current_quantity − trip.hours × consume_per_hour)`,
which is nonnegative, and any sequence of quantity updates (auto-consumption
applications or clamped direct edits) keeps `current_quantity ≥ 0` when it
starts nonnegative. -/
theorem C5_consumption_floor (q h c : ℚ) (hq : 0 ≤ q) (hc : 0 ≤ c)
    (us : List VesselOps.QuantityUpdate) :
    VesselOps.autoConsume q h c = max 0 (q - h * c) ∧
    0 ≤ VesselOps.autoConsume q h c ∧
    0 ≤ VesselOps.applyQuantityUpdates q us :=
  ⟨rfl, le_max_left 0 _, applyQuantityUpdates_nonneg us q hq⟩

/-- Witness for C5 at Scenario D of the spec: `current_quantity = 10`,
`trip.hours = 25`, `consume_per_hour = 1/2`, followed by a second trip. -/
theorem C5_consumption_floor_witness :
    (0 : ℚ) ≤ 10 ∧ (0 : ℚ) ≤ 1 / 2 ∧
    (VesselOps.autoConsume 10 25 (1 / 2) = max 0 (10 - 25 * (1 / 2)) ∧
      0 ≤ VesselOps.autoConsume 10 25 (1 / 2) ∧
      0 ≤ VesselOps.applyQuantityUpdates 10
        [VesselOps.QuantityUpdate.trip 25 (1 / 2), VesselOps.QuantityUpdate.trip 3 1]) :=
  ⟨by norm_num, by norm_num,
    C5_consumption_floor 10 25 (1 / 2) (by norm_num) (by norm_num)
      [VesselOps.QuantityUpdate.trip 25 (1 / 2), VesselOps.QuantityUpdate.trip 3 1]⟩

/-- C6 counterexample: an inactive task (`is_active = false`) overdue by date
and with `0 < hours_remaining ≤ 168` is counted by both `overdueCount` and
`dueSoonCount` — the counts never consult `is_active`, contradicting the claim
that inactive tasks are excluded from them. -/
theorem C6_counterexample :
    (VesselOps.MaintenanceTask.is_active
      { id := 3, next_due_at := some (-1), is_active := false,
        hours_remaining := some 100, is_due_by_hours := some false } = false) ∧
    VesselOps.overdueCount 0
      [{ id := 3, next_due_at := some (-1), is_active := false,
         hours_remaining := some 100, is_due_by_hours := some false }] = 1 ∧
    VesselOps.dueSoonCount 0
      [{ id := 3, next_due_at := some (-1), is_active := false,
         hours_remaining := some 100, is_due_by_hours := some false }] = 1 := by
  refine ⟨rfl, ?_, ?_⟩ <;>
    norm_num [VesselOps.overdueCount, VesselOps.dueSoonCount, VesselOps.overdueTaskB,
      VesselOps.dueSoonTaskB, List.filter]

/-- C6 amended: the overdue and due-soon counts do not exclude inactive tasks —
both count predicates ignore `is_active` entirely — while every task, inactive
ones included, remains individually queryable in the task list (the All filter
retains it). -/
theorem C6_amended (now : ℤ) (t : VesselOps.MaintenanceTask) (b : Bool) :
    VesselOps.overdueTaskB now { t with is_active := b } = VesselOps.overdueTaskB now t ∧
    VesselOps.dueSoonTaskB now { t with is_active := b } = VesselOps.dueSoonTaskB now t ∧
    VesselOps.filteredTaskB now VesselOps.TaskFilter.all t = true := by
  refine ⟨rfl, rfl, ?_⟩
  simp [VesselOps.filteredTaskB]

/-- C7: the trip-logging form handler rejects every submission whose parsed
hours are not a number greater than zero — non-numeric input (`NaN`) or
`hours ≤ 0` — with a synchronously surfaced validation error, and such a
submission never reaches the trip-creating call. -/
theorem C7_trip_validation (parsed : Option ℚ)
    (h : parsed = none ∨ ∃ x, parsed = some x ∧ x ≤ 0) :
    VesselOps.handleSubmitTrip parsed = Except.error VesselOps.ApiError.validationError ∧
    ∀ t : VesselOps.TripCreate, VesselOps.handleSubmitTrip parsed ≠ Except.ok t := by
  have he : VesselOps.handleSubmitTrip parsed = Except.error VesselOps.ApiError.validationError := by
    rcases h with h | ⟨x, hx, hle⟩
    · simp [VesselOps.handleSubmitTrip, h]
    · simp [VesselOps.handleSubmitTrip, hx, hle]
  refine ⟨he, fun t hcon => ?_⟩
  rw [he] at hcon
  exact Except.noConfusion hcon

/-- Witness for C7 at `hours = 0`. -/
theorem C7_trip_validation_witness :
    ((some (0 : ℚ) = none ∨ ∃ x, some (0 : ℚ) = some x ∧ x ≤ 0) ∧
      (VesselOps.handleSubmitTrip (some 0) = Except.error VesselOps.ApiError.validationError ∧
        ∀ t : VesselOps.TripCreate, VesselOps.handleSubmitTrip (some 0) ≠ Except.ok t)) :=
  ⟨Or.inr ⟨0, rfl, le_refl 0⟩, C7_trip_validation (some 0) (Or.inr ⟨0, rfl, le_refl 0⟩)⟩

/-- C8: once a check is submitted, any `upsertLines` or `submit` call on it
fails with `ConflictError`, and the stored check's line set is unchanged after
either failed call — the submitted state is terminal. -/
theorem C8_submitted_terminal (c : VesselOps.InventoryCheck)
    (h : c.status = VesselOps.CheckStatus.submitted)
    (ls : List VesselOps.InventoryCheckLine) :
    VesselOps.upsertLines c ls = Except.error VesselOps.ApiError.conflictError ∧
    VesselOps.submitCheck c = Except.error VesselOps.ApiError.conflictError ∧
    (VesselOps.afterUpsertLines c ls).lines = c.lines ∧
    (VesselOps.afterSubmit c).lines = c.lines := by
  have h1 : VesselOps.upsertLines c ls = Except.error VesselOps.ApiError.conflictError := by
    unfold VesselOps.upsertLines
    rw [h]
  have h2 : VesselOps.submitCheck c = Except.error VesselOps.ApiError.conflictError := by
    unfold VesselOps.submitCheck
    rw [h]
  refine ⟨h1, h2, ?_, ?_⟩
  · unfold VesselOps.afterUpsertLines
    rw [h1]
  · unfold VesselOps.afterSubmit
    rw [h2]

/-- Witness for C8 on a concrete submitted check holding one line. -/
theorem C8_submitted_terminal_witness :
    VesselOps.upsertLines
        { status := VesselOps.CheckStatus.submitted,
          lines := [{ requirement_id := 1, actual_quantity := 2,
                      condition := VesselOps.LineCondition.ok, notes := none }] }
        [{ requirement_id := 1, actual_quantity := 9,
           condition := VesselOps.LineCondition.missing, notes := none }] =
      Except.error VesselOps.ApiError.conflictError ∧
    VesselOps.submitCheck
        { status := VesselOps.CheckStatus.submitted,
          lines := [{ requirement_id := 1, actual_quantity := 2,
                      condition := VesselOps.LineCondition.ok, notes := none }] } =
      Except.error VesselOps.ApiError.conflictError ∧
    (VesselOps.afterUpsertLines
        { status := VesselOps.CheckStatus.submitted,
          lines := [{ requirement_id := 1, actual_quantity := 2,
                      condition := VesselOps.LineCondition.ok, notes := none }] }
        [{ requirement_id := 1, actual_quantity := 9,
           condition := VesselOps.LineCondition.missing, notes := none }]).lines =
      VesselOps.InventoryCheck.lines
        { status := VesselOps.CheckStatus.submitted,
          lines := [{ requirement_id := 1, actual_quantity := 2,
                      condition := VesselOps.LineCondition.ok, notes := none }] } ∧
    (VesselOps.afterSubmit
        { status := VesselOps.CheckStatus.submitted,
          lines := [{ requirement_id := 1, actual_quantity := 2,
                      condition := VesselOps.LineCondition.ok, notes := none }] }).lines =
      VesselOps.InventoryCheck.lines
        { status := VesselOps.CheckStatus.submitted,
          lines := [{ requirement_id := 1, actual_quantity := 2,
                      condition := VesselOps.LineCondition.ok, notes := none }] } :=
  C8_submitted_terminal _ rfl _

/-- C9: saving or submitting an in-progress check writes exactly one line per
requirement of the vessel; a requirement the user never entered a quantity for
is recorded with `actual_quantity = 0` and condition `"ok"`. -/
theorem C9_check_lines_cover (reqs : List VesselOps.InventoryRequirement)
    (q : Nat → Option ℚ) (req : VesselOps.InventoryRequirement) (hmem : req ∈ reqs) :
    (VesselOps.checkViewLines reqs q).length = reqs.length ∧
    ∃ l ∈ VesselOps.checkViewLines reqs q,
      l.requirement_id = req.id ∧ l.condition = VesselOps.LineCondition.ok ∧
        (q req.id = none → l.actual_quantity = 0) := by
  constructor
  · simp [VesselOps.checkViewLines]
  · refine ⟨_, List.mem_map_of_mem _ hmem, rfl, rfl, ?_⟩
    intro hno
    simp [hno]

/-- Witness for C9: one requirement, an empty quantities record. -/
theorem C9_check_lines_cover_witness :
    (VesselOps.checkViewLines
        [{ id := 7, required_quantity := 3, critical := false, current_quantity := 0,
           auto_consume_enabled := false, consume_per_hour := none }]
        (fun _ => none)).length = 1 ∧
    ∃ l ∈ VesselOps.checkViewLines
        [{ id := 7, required_quantity := 3, critical := false, current_quantity := 0,
           auto_consume_enabled := false, consume_per_hour := none }]
        (fun _ => none),
      l.requirement_id =
        VesselOps.InventoryRequirement.id
          { id := 7, required_quantity := 3, critical := false, current_quantity := 0,
            auto_consume_enabled := false, consume_per_hour := none } ∧
      l.condition = VesselOps.LineCondition.ok ∧
        ((fun _ => (none : Option ℚ)) 7 = none → l.actual_quantity = 0) :=
  C9_check_lines_cover _ (fun _ => none) _ (List.mem_singleton.mpr rfl)

/-- C10: the Overdue filter of the task list selects a task exactly when
`next_due_at` is non-null and earlier than `now`; a task that is overdue only
by hours (`is_due_by_hours = true`, `next_due_at` null) is counted by
`overdueCount` and badged Overdue by `getTaskStatus`, yet excluded by the
Overdue filter — so for some lists the filtered set is strictly smaller than
the displayed count. -/
theorem C10_overdue_filter (now : ℤ) (t : VesselOps.MaintenanceTask)
    (hbh : t.is_due_by_hours = some true) (hnd : t.next_due_at = none) :
    (∀ u : VesselOps.MaintenanceTask,
      VesselOps.filteredTaskB now VesselOps.TaskFilter.overdue u = true ↔
        ∃ d, u.next_due_at = some d ∧ d < now) ∧
    VesselOps.overdueTaskB now t = true ∧
    VesselOps.getTaskStatus now t = VesselOps.TaskStatusLabel.overdue ∧
    VesselOps.filteredTaskB now VesselOps.TaskFilter.overdue t = false ∧
    (∃ tasks, (VesselOps.filteredTasks now VesselOps.TaskFilter.overdue tasks).length <
      VesselOps.overdueCount now tasks) := by
  refine ⟨?_, ?_, ?_, ?_, ⟨[t], ?_⟩⟩
  · intro u
    rcases hu : u.next_due_at with _ | d <;>
      simp [VesselOps.filteredTaskB, hu]
  · simp [VesselOps.overdueTaskB, hbh]
  · simp [VesselOps.getTaskStatus, hbh]
  · simp [VesselOps.filteredTaskB, hnd]
  · simp [VesselOps.filteredTasks, VesselOps.overdueCount, VesselOps.filteredTaskB,
      VesselOps.overdueTaskB, List.filter, hnd, hbh]

/-- Witness for C10 on a concrete task overdue only by hours. -/
theorem C10_overdue_filter_witness :
    (∀ u : VesselOps.MaintenanceTask,
      VesselOps.filteredTaskB 0 VesselOps.TaskFilter.overdue u = true ↔
        ∃ d, u.next_due_at = some d ∧ d < 0) ∧
    VesselOps.overdueTaskB 0
      { id := 4, next_due_at := none, is_active := true,
        hours_remaining := some (-5), is_due_by_hours := some true } = true ∧
    VesselOps.getTaskStatus 0
      { id := 4, next_due_at := none, is_active := true,
        hours_remaining := some (-5), is_due_by_hours := some true } =
      VesselOps.TaskStatusLabel.overdue ∧
    VesselOps.filteredTaskB 0 VesselOps.TaskFilter.overdue
      { id := 4, next_due_at := none, is_active := true,
        hours_remaining := some (-5), is_due_by_hours := some true } = false ∧
    (∃ tasks, (VesselOps.filteredTasks 0 VesselOps.TaskFilter.overdue tasks).length <
      VesselOps.overdueCount 0 tasks) :=
  C10_overdue_filter 0 _ rfl rfl
